import Mathlib

/-!
Verification development for the student finance coach's two core subsystems:
the budget analysis engine (`src/services/budget.py`) and the rule-based
question-answering engine (`src/services/knowledge.py`).

Conventions of the shallow embedding:
* Python floats are modelled as exact rationals (`ℚ`); the source performs only
  field arithmetic and comparisons, so every comparison/branch is preserved.
* Python dicts that are built by insertion are modelled as association lists in
  insertion order (CPython dicts iterate in insertion order).
* Python `None` inputs are modelled with `Option`.
* The f-string number formatting (`:.1f`, `:.2f`) is modelled by `fmtFixed`,
  a decimal renderer on `ℚ`; rounding of the last digit may differ from
  CPython's binary-float formatting, and no claim depends on those digits.
-/

/-! ## Budget analysis (`src/services/budget.py`) -/

/-- A budget snapshot as consumed by `analyze_budget`: `income`, `savings`, and
the expense lines, each a `(category, amount)` pair. -/
structure Budget where
  income : ℚ
  savings : ℚ
  expenses : List (String × ℚ)
deriving DecidableEq, Repr

/-- The `category_mapping` table of `map_to_general_category` (budget.py lines 463-496). -/
def category_mapping : List (String × String) :=
  [("Housing", "Housing"), ("Rent", "Housing"), ("Mortgage", "Housing"), ("Dorm", "Housing"),
   ("Groceries", "Food"), ("Dining Out", "Food"), ("Meal Plan", "Food"),
   ("Textbooks", "Education"), ("School Supplies", "Education"), ("Tuition", "Education"),
   ("Bus", "Transportation"), ("Car Payment", "Transportation"), ("Gas", "Transportation"),
   ("Parking", "Transportation"), ("Transportation", "Transportation"),
   ("Entertainment", "Entertainment"), ("Streaming", "Entertainment"),
   ("Movies", "Entertainment"), ("Games", "Entertainment"),
   ("Clothing", "Other"), ("Personal Care", "Other"), ("Phone & Internet", "Other"),
   ("Insurance", "Other"), ("Subscriptions", "Other"), ("Health & Wellness", "Other"),
   ("Miscellaneous", "Other"), ("Loan Payments", "Other")]

/-- `map_to_general_category`: `category_mapping.get(category, "Other")`. -/
def map_to_general_category (category : String) : String :=
  ((category_mapping.find? (fun p => p.1 == category)).map Prod.snd).getD ("Other")

/-- `BUDGET_THRESHOLDS` from `src/config.py` (percent of income per general category). -/
def BUDGET_THRESHOLDS : List (String × ℚ) :=
  [("Housing", 30), ("Food", 15), ("Transportation", 10), ("Education", 20),
   ("Entertainment", 5), ("Savings", 10), ("Other", 10)]

/-- `BUDGET_THRESHOLDS.get(category, 10)` — the threshold lookup with default 10
used at budget.py line 312. -/
def thresholdOf (category : String) : ℚ :=
  ((BUDGET_THRESHOLDS.find? (fun p => p.1 == category)).map Prod.snd).getD 10

/-- `total_expenses = sum(expense['amount'] for expense in budget.expenses)`. -/
def total_expensesOf (b : Budget) : ℚ :=
  (b.expenses.map (fun e => e.2)).sum

/-- `remaining = total_income - total_expenses - savings`. -/
def remainingOf (b : Budget) : ℚ :=
  b.income - total_expensesOf b - b.savings

/-- `savings_ratio = (savings / total_income * 100) if total_income > 0 else 0`. -/
def savings_ratioOf (b : Budget) : ℚ :=
  if 0 < b.income then b.savings / b.income * 100 else 0

/-- One step of building `grouped_expenses`: add `amount` to the entry for
`category`, or append a fresh entry — exactly a CPython dict update in
insertion order (budget.py lines 298-301). -/
def addToGroup (groups : List (String × ℚ)) (category : String) (amount : ℚ) :
    List (String × ℚ) :=
  match groups with
  | [] => [(category, amount)]
  | (c, a) :: rest =>
      if c == category then (c, a + amount) :: rest
      else (c, a) :: addToGroup rest category amount

/-- `grouped_expenses`: expenses grouped by `map_to_general_category` of their
category, in first-insertion order (budget.py lines 290-301). -/
def grouped_expensesOf (b : Budget) : List (String × ℚ) :=
  b.expenses.foldl (fun acc e => addToGroup acc (map_to_general_category e.1) e.2) []

/-- `expense_ratios[category] = (amount / total_income * 100) if total_income > 0 else 0`
for each grouped category (budget.py lines 304-307). -/
def expense_ratiosOf (b : Budget) : List (String × ℚ) :=
  (grouped_expensesOf b).map (fun p => (p.1, if 0 < b.income then p.2 / b.income * 100 else 0))

/-- A concern, as appended at budget.py lines 314-321 and 325-332. -/
structure Concern where
  category : String
  current : ℚ
  threshold : ℚ
  excess : ℚ
  amount : ℚ
  saving_potential : ℚ
deriving DecidableEq, Repr

/-- Association-list read standing in for Python's `grouped_expenses[category]`;
in `analyze_budget` the key is always present, so the 0 default is never taken. -/
def lookupAmount (l : List (String × ℚ)) (k : String) : ℚ :=
  ((l.find? (fun p => p.1 == k)).map Prod.snd).getD 0

/-- `concerns` (budget.py lines 309-332): one entry per `expense_ratios` item whose
ratio exceeds its threshold, then the synthetic `Savings` entry when the savings
ratio is below the `Savings` threshold. -/
def concernsOf (b : Budget) : List Concern :=
  (expense_ratiosOf b).filterMap (fun p =>
    if thresholdOf p.1 < p.2 then
      some { category := p.1, current := p.2, threshold := thresholdOf p.1,
             excess := p.2 - thresholdOf p.1,
             amount := lookupAmount (grouped_expensesOf b) p.1,
             saving_potential := (p.2 - thresholdOf p.1) * b.income / 100 }
    else none)
  ++ (if savings_ratioOf b < thresholdOf ("Savings") then
        [{ category := ("Savings" : String), current := savings_ratioOf b,
           threshold := thresholdOf ("Savings"), excess := 0, amount := b.savings,
           saving_potential := 0 }]
      else [])

/-- A recommendation record: `{"type": ..., "message": ..., "priority": ...}`. -/
structure Recommendation where
  type : String
  message : String
  priority : String
deriving DecidableEq, Repr

/-- Decimal rendering of a rational with `d` digits after the point, standing in
for Python's `:.1f` / `:.2f` float formatting (rounding of the final digit may
differ from binary-float formatting; no claim depends on these digits). -/
def fmtFixed (d : Nat) (q : ℚ) : String :=
  let sign := if q < 0 then ("-" : String) else ("" : String)
  let n : Nat := (round (|q| * ((10 : ℚ) ^ d))).toNat
  let fps := toString (n % 10 ^ d)
  let pad := String.mk (List.replicate (d - fps.length) '0')
  sign ++ toString (n / 10 ^ d) ++ (if d = 0 then ("" : String) else "." ++ pad ++ fps)

/-- The overall-balance recommendation (budget.py lines 338-355). -/
def balanceRecOf (b : Budget) : Recommendation :=
  if remainingOf b < 0 then
    { type := ("warning" : String),
      message := ("Your expenses exceed your income by $" : String) ++
        fmtFixed 2 (abs (remainingOf b)) ++
        ". You need to reduce expenses or increase income.",
      priority := ("high" : String) }
  else if remainingOf b = 0 then
    { type := ("info" : String),
      message := ("Your budget is balanced exactly with no extra buffer. Consider reducing some expenses to provide flexibility." : String),
      priority := ("medium" : String) }
  else
    { type := ("success" : String),
      message := ("You have $" : String) ++ fmtFixed 2 (remainingOf b) ++
        " remaining after expenses and savings. Consider allocating this to additional savings or debt payment.",
      priority := ("low" : String) }

/-- The savings-rate recommendation (budget.py lines 358-375). -/
def savingsRateRecOf (b : Budget) : Recommendation :=
  if savings_ratioOf b < 5 then
    { type := ("warning" : String),
      message := ("Your savings rate is only " : String) ++ fmtFixed 1 (savings_ratioOf b) ++
        "%. Aim for at least 10% of income saved for emergencies and future needs.",
      priority := ("high" : String) }
  else if savings_ratioOf b < 10 then
    { type := ("info" : String),
      message := ("Your savings rate is " : String) ++ fmtFixed 1 (savings_ratioOf b) ++
        "%. Consider increasing to at least 10% to build financial security.",
      priority := ("medium" : String) }
  else
    { type := ("success" : String),
      message := ("Great job! Your savings rate is " : String) ++ fmtFixed 1 (savings_ratioOf b) ++
        "%, which meets or exceeds the recommended 10%.",
      priority := ("low" : String) }

/-- The per-concern warning appended for every non-`Savings` concern
(budget.py lines 378-384). -/
def concernRecommendation (c : Concern) : Recommendation :=
  { type := ("warning" : String),
    message := ("Your spending on " : String) ++ c.category ++ " is " ++
      fmtFixed 1 c.current ++
      "% of your income, which exceeds the recommended " ++ toString c.threshold ++
      "%. Reducing this could save you $" ++ fmtFixed 2 c.saving_potential ++ " per month.",
    priority := ("medium" : String) }

/-- First fixed student tip (budget.py lines 387-391). -/
def studentTip1 : Recommendation :=
  { type := ("tip" : String),
    message := ("Look for student discounts on textbooks, software, and entertainment to reduce expenses." : String),
    priority := ("low" : String) }

/-- Second fixed student tip (budget.py lines 393-397). -/
def studentTip2 : Recommendation :=
  { type := ("tip" : String),
    message := ("Consider using campus facilities (gym, library, etc.) instead of paying for external services." : String),
    priority := ("low" : String) }

/-- `recommendations` built in source order (budget.py lines 334-397): overall
balance, savings rate, one warning per non-`Savings` concern in discovery
order, then the two student tips. -/
def recommendationsOf (b : Budget) : List Recommendation :=
  balanceRecOf b :: savingsRateRecOf b ::
    ((concernsOf b).filterMap (fun c =>
      if c.category == ("Savings" : String) then none else some (concernRecommendation c)))
    ++ [studentTip1, studentTip2]

/-- The analysis dict returned for a non-null budget (budget.py lines 399-410). -/
structure BudgetAnalysis where
  total_income : ℚ
  total_expenses : ℚ
  savings : ℚ
  remaining : ℚ
  savings_ratio : ℚ
  expense_ratios : List (String × ℚ)
  grouped_expenses : List (String × ℚ)
  concerns : List Concern
  balance : Bool
  recommendations : List Recommendation
deriving DecidableEq, Repr

/-- The non-null branch of `analyze_budget` (budget.py lines 278-410). -/
def analyzeFull (b : Budget) : BudgetAnalysis :=
  { total_income := b.income, total_expenses := total_expensesOf b, savings := b.savings,
    remaining := remainingOf b, savings_ratio := savings_ratioOf b,
    expense_ratios := expense_ratiosOf b, grouped_expenses := grouped_expensesOf b,
    concerns := concernsOf b, balance := decide (0 ≤ remainingOf b),
    recommendations := recommendationsOf b }

/-- `analyze_budget` returns two different dict shapes: the degenerate dict with
only `balance` and `recommendations` for a null budget (lines 266-276), or the
full analysis. The two constructors mirror those two shapes. -/
inductive AnalysisResult where
  | degenerate (balance : Bool) (recommendations : List Recommendation)
  | analysis (a : BudgetAnalysis)
deriving DecidableEq, Repr

/-- `analyze_budget(budget)` with the null budget modelled as `none`. -/
def analyze_budget : Option Budget → AnalysisResult
  | none =>
      .degenerate false
        [{ type := ("error" : String),
           message := ("No budget data available for analysis." : String),
           priority := ("high" : String) }]
  | some b => .analysis (analyzeFull b)

/-! ## Knowledge engine (`src/services/knowledge.py`) -/

/-- A glossary entry, restricted to the fields the verified functions read:
`definition` (required), `aliases` (default empty), optional `student_context`. -/
structure TermInfo where
  definition : String
  aliases : List String := []
  student_context : Option String := none
deriving DecidableEq, Repr

/-- The knowledge base: a term-name-keyed dict, modelled as an association list
in insertion order. -/
abbrev KB := List (String × TermInfo)

/-- Bool test for `n` being a contiguous sublist of `h` (Python's `in` on strings). -/
def listIsInfix (n : List Char) (h : List Char) : Bool :=
  n.isPrefixOf h ||
    (match h with
     | [] => false
     | _ :: t => listIsInfix n t)

/-- Python's `needle in hay` for strings. -/
def substrB (needle hay : String) : Bool :=
  listIsInfix needle.toList hay.toList

/-- Python's `str.lower()` for the ASCII strings this model covers, defined
through the character list so that it evaluates inside the kernel
(`String.toLower` is defined by well-founded recursion and does not). -/
def pyLower (s : String) : String := String.mk (s.toList.map Char.toLower)

/-- `find_best_match(term, knowledge_base)` (knowledge.py lines 654-694):
five sequential early-return scans. -/
def find_best_match (term : String) (kb : KB) : Option String :=
  if kb.any (fun p => p.1 == term) then some term
  else match kb.find? (fun p => pyLower term == pyLower p.1) with
  | some p => some p.1
  | none =>
    match kb.find? (fun p => p.2.aliases.any (fun al => pyLower term == pyLower al)) with
    | some p => some p.1
    | none =>
      match kb.find? (fun p => substrB (pyLower term) (pyLower p.1)) with
      | some p => some p.1
      | none =>
        match kb.find? (fun p => p.2.aliases.any (fun al => substrB (pyLower term) (pyLower al))) with
        | some p => some p.1
        | none => none

/-- Spec tier 1: exact key match. -/
def tierExactKey (phrase : String) (kb : KB) : Option String :=
  if kb.any (fun p => p.1 == phrase) then some phrase else none

/-- Spec tier 2: case-insensitive key match (first key in glossary order). -/
def tierCIKey (phrase : String) (kb : KB) : Option String :=
  (kb.find? (fun p => pyLower phrase == pyLower p.1)).map Prod.fst

/-- Spec tier 3: case-insensitive exact match against any alias. -/
def tierAliasExact (phrase : String) (kb : KB) : Option String :=
  (kb.find? (fun p => p.2.aliases.any (fun al => pyLower phrase == pyLower al))).map Prod.fst

/-- Spec tier 4: phrase is a substring of a term key (case-insensitive). -/
def tierKeySubstring (phrase : String) (kb : KB) : Option String :=
  (kb.find? (fun p => substrB (pyLower phrase) (pyLower p.1))).map Prod.fst

/-- Spec tier 5: phrase is a substring of an alias (case-insensitive). -/
def tierAliasSubstring (phrase : String) (kb : KB) : Option String :=
  (kb.find? (fun p => p.2.aliases.any (fun al => substrB (pyLower phrase) (pyLower al)))).map Prod.fst

/-- Modelled from the spec's words (§4.4): the tiered cascade where the first
successful tier wins, for comparison with `find_best_match`. -/
def resolveSpec (phrase : String) (kb : KB) : Option String :=
  (tierExactKey phrase kb).orElse (fun _ =>
  (tierCIKey phrase kb).orElse (fun _ =>
  (tierAliasExact phrase kb).orElse (fun _ =>
  (tierKeySubstring phrase kb).orElse (fun _ =>
  tierAliasSubstring phrase kb))))

/-- Python's `\w` word character, for the ASCII questions this model covers. -/
def isWordChar (c : Char) : Bool :=
  ('a' ≤ c && c ≤ 'z') || ('A' ≤ c && c ≤ 'Z') || ('0' ≤ c && c ≤ '9') || c = '_'

/-- Accumulating splitter into maximal runs of word characters. -/
def wordRunsAux : List Char → List Char → List (List Char)
  | [], cur => if cur.isEmpty then [] else [cur.reverse]
  | c :: rest, cur =>
      if isWordChar c then wordRunsAux rest (c :: cur)
      else if cur.isEmpty then wordRunsAux rest []
      else cur.reverse :: wordRunsAux rest []

/-- Maximal runs of word characters of a string, in order. -/
def wordRuns (l : List Char) : List (List Char) :=
  wordRunsAux l []

/-- `re.findall(r'\b[a-z]{3,}\b', question.lower())`: the maximal word-character
runs that consist solely of `a`-`z` and have length at least 3 (a run containing
a digit or underscore defeats the word boundaries, so it yields no token). -/
def question_wordsOf (question : String) : List String :=
  (wordRuns (pyLower question).toList).filterMap (fun run =>
    if run.all (fun c => 'a' ≤ c && c ≤ 'z') && decide (3 ≤ run.length)
    then some (String.mk run) else none)

/-- The relevance score of one glossary entry (knowledge.py lines 608-626):
3 per query word occurring in the term name, 2 per word-alias hit, 1 per word
occurring in the definition. -/
def term_relevance (words : List String) (name : String) (info : TermInfo) : Nat :=
  (words.map (fun w => if substrB w (pyLower name) then 3 else 0)).sum
  + (info.aliases.map (fun al =>
      (words.map (fun w => if substrB w (pyLower al) then 2 else 0)).sum)).sum
  + (words.map (fun w => if substrB w (pyLower info.definition) then 1 else 0)).sum

/-- The `term_relevance` dict (knowledge.py lines 607-629): entries with a
positive score, in glossary order. -/
def scoredTermsOf (question : String) (kb : KB) : List (String × Nat) :=
  let words := question_wordsOf question
  kb.filterMap (fun p =>
    let r := term_relevance words p.1 p.2
    if 0 < r then some (p.1, r) else none)

/-- The comparison used to model `sorted(..., key=relevance, reverse=True)`:
`a` may precede `b` when `a`'s score is at least `b`'s. -/
def scoreGe (a b : String × Nat) : Prop := b.2 ≤ a.2

instance : DecidableRel scoreGe := fun a b => Nat.decLe b.2 a.2

instance : IsTotal (String × Nat) scoreGe := ⟨fun a b => Nat.le_total b.2 a.2⟩

instance : IsTrans (String × Nat) scoreGe := ⟨fun _ _ _ h1 h2 => Nat.le_trans h2 h1⟩

/-- `relevant_terms` (knowledge.py line 632): scored terms sorted by descending
relevance; insertion sort with `scoreGe` is stable, matching Python's
`sorted(..., reverse=True)` tie behavior (insertion order preserved). -/
def relevant_termsOf (question : String) (kb : KB) : List String :=
  (List.insertionSort scoreGe (scoredTermsOf question kb)).map Prod.fst

/-- Association-list read standing in for `knowledge_base[best_term]`; the key
always comes from the glossary itself, so the default is never taken. -/
def lookupInfo (kb : KB) (k : String) : TermInfo :=
  ((kb.find? (fun p => p.1 == k)).map Prod.snd).getD { definition := ("" : String) }

/-- `answer_general_question` (knowledge.py lines 592-652). -/
def answer_general_question (question : String) (kb : KB) : String :=
  match relevant_termsOf question kb with
  | [] => ("I don't have enough information to answer that question. Please try asking about specific financial terms or concepts." : String)
  | best :: rest =>
    let info := lookupInfo kb best
    let answer := ("Based on your question, you might be interested in information about " : String)
      ++ best ++ ":\n\n" ++ info.definition
    let answer :=
      match info.student_context with
      | some sc => answer ++ "\n\n" ++ sc
      | none => answer
    if 0 < rest.length then
      answer ++ "\n\nYou might also be interested in: " ++ String.intercalate ", " (rest.take 2)
    else answer

/-! ### The question-pattern cascade of `process_question` (knowledge.py lines 303-387)

Each Python regex used there is a sequence of the following items; the matcher
below reproduces `re.search` semantics for this fragment: leftmost match
position wins, alternatives are tried left to right, `[a-z\s]+` captures are
greedy with backtracking. -/

/-- One regex item: a literal, an alternation of literals, an optional
alternation (`(?:..|..)?`), an optional literal (`\??`, `\.?`), or the greedy
capturing class `([a-z\s]+)`. -/
inductive PatItem where
  | lit (s : List Char)
  | alts (ss : List (List Char))
  | optAlts (ss : List (List Char))
  | optLit (s : List Char)
  | capture
deriving DecidableEq, Repr

/-- Python's `\s` (ASCII range). -/
def isSpaceChar (c : Char) : Bool :=
  c = ' ' || c = '\t' || c = '\n' || c = '\r' || c = '\x0c' || c = '\x0b'

/-- The character class `[a-z\s]`. -/
def isLowerOrSpace (c : Char) : Bool :=
  ('a' ≤ c && c ≤ 'z') || isSpaceChar c

/-- Length of the maximal prefix satisfying `p`. -/
def countWhile (p : Char → Bool) : List Char → Nat
  | [] => 0
  | c :: rest => if p c then countWhile p rest + 1 else 0

/-- Backtracking matcher for an item sequence anchored at the start of `input`
(the end stays unanchored, as in `re.search`). Returns the captured groups of
the first match in regex preference order: earlier items' choices are more
significant, alternatives left to right, captures longest first. -/
def matchItems : List PatItem → List Char → Option (List (List Char))
  | [], _ => some []
  | .lit s :: items, input =>
      if s.isPrefixOf input then matchItems items (input.drop s.length) else none
  | .alts ss :: items, input =>
      ss.findSome? (fun s =>
        if s.isPrefixOf input then matchItems items (input.drop s.length) else none)
  | .optAlts ss :: items, input =>
      (ss.findSome? (fun s =>
        if s.isPrefixOf input then matchItems items (input.drop s.length) else none)).orElse
        (fun _ => matchItems items input)
  | .optLit s :: items, input =>
      (if s.isPrefixOf input then matchItems items (input.drop s.length) else none).orElse
        (fun _ => matchItems items input)
  | .capture :: items, input =>
      (List.range (countWhile isLowerOrSpace input)).reverse.findSome? (fun k =>
        (matchItems items (input.drop (k + 1))).map (fun caps => (input.take (k + 1)) :: caps))

/-- `re.search`: try the pattern at position 0, then 1, and so on. -/
def searchPattern (items : List PatItem) : List Char → Option (List (List Char))
  | [] => matchItems items []
  | c :: rest =>
    match matchItems items (c :: rest) with
    | some caps => some caps
    | none => searchPattern items rest

/-- `definition_patterns` (knowledge.py lines 318-323). -/
def definition_patterns : List (List PatItem) :=
  [[.lit ("what is ".toList), .optAlts [("a ".toList), ("an ".toList), ("the ".toList)],
    .capture, .optLit ("?".toList)],
   [.lit ("define ".toList), .optAlts [("a ".toList), ("an ".toList), ("the ".toList)], .capture],
   [.lit ("explain ".toList), .optAlts [("a ".toList), ("an ".toList), ("the ".toList)], .capture],
   [.lit ("tell me about ".toList), .optAlts [("a ".toList), ("an ".toList), ("the ".toList)], .capture]]

/-- `comparison_patterns` (knowledge.py lines 325-329). -/
def comparison_patterns : List (List PatItem) :=
  [[.alts [("what is".toList), ("what's".toList)], .lit (" the difference between ".toList),
    .capture, .lit (" and ".toList), .capture],
   [.lit ("compare ".toList), .capture, .lit (" ".toList),
    .alts [("to".toList), ("and".toList), ("with".toList)], .lit (" ".toList), .capture],
   [.capture, .lit (" vs".toList), .optLit (".".toList), .lit (" ".toList), .capture]]

/-- `how_to_patterns` (knowledge.py lines 331-336). Note the literal uppercase
`I` in the first and third patterns, kept exactly as in the source. -/
def how_to_patterns : List (List PatItem) :=
  [[.lit ("how do I ".toList), .capture],
   [.lit ("how to ".toList), .capture],
   [.lit ("how can I ".toList), .capture],
   [.lit ("ways to ".toList), .capture]]

/-- `recommendation_patterns` (knowledge.py lines 338-342). Note the literal
uppercase `I` in the first pattern, kept exactly as in the source. -/
def recommendation_patterns : List (List PatItem) :=
  [[.lit ("should I ".toList), .capture],
   [.lit ("is it ".toList),
    .alts [("good".toList), ("better".toList), ("best".toList), ("wise".toList), ("advisable".toList)],
    .lit (" to ".toList), .capture],
   [.lit ("what's the best way to ".toList), .capture]]

/-- `calculation_patterns` (knowledge.py lines 344-348). -/
def calculation_patterns : List (List PatItem) :=
  [[.lit ("how ".toList), .alts [("much".toList), ("many".toList)], .lit (" ".toList), .capture],
   [.lit ("calculate ".toList), .capture],
   [.lit ("what percentage ".toList), .capture]]

/-- Try a pattern group in order; first pattern with a match wins. -/
def matchGroup (pats : List (List PatItem)) (q : List Char) : Option (List (List Char)) :=
  pats.findSome? (fun p => searchPattern p q)

/-- Python's `.strip()` on the captured group. -/
def stripChars (l : List Char) : List Char :=
  ((l.dropWhile isSpaceChar).reverse.dropWhile isSpaceChar).reverse

/-- The classified intent of a question; each constructor records which
`answer_*` function `process_question` dispatches to and the stripped
group(s) it passes. -/
inductive Intent where
  | Definition (subject : String)
  | Comparison (a : String) (b : String)
  | HowTo (action : String)
  | Recommendation (action : String)
  | Calculation (subject : String)
  | General (raw : String)
deriving DecidableEq, Repr

/-- The classification cascade of `process_question` (knowledge.py lines
314-387): lowercase the question, try the five pattern groups in order, first
matching group wins; on no match fall through to `General` carrying the raw
question text (which is what `answer_general_question` receives). -/
def process_question (question : String) : Intent :=
  let ql := (pyLower question).toList
  match matchGroup definition_patterns ql with
  | some (g :: _) => .Definition (String.mk (stripChars g))
  | _ =>
  match matchGroup comparison_patterns ql with
  | some (g1 :: g2 :: _) => .Comparison (String.mk (stripChars g1)) (String.mk (stripChars g2))
  | _ =>
  match matchGroup how_to_patterns ql with
  | some (g :: _) => .HowTo (String.mk (stripChars g))
  | _ =>
  match matchGroup recommendation_patterns ql with
  | some (g :: _) => .Recommendation (String.mk (stripChars g))
  | _ =>
  match matchGroup calculation_patterns ql with
  | some (g :: _) => .Calculation (String.mk (stripChars g))
  | _ => .General question

/-! ## Claim theorems: budget analyzer -/

/-- C2: for every budget, the `remaining` field of the analysis returned by
`analyze_budget` equals income minus the sum of all expense amounts minus
savings, exactly (the model is exact rational arithmetic, hence within any
tolerance). -/
theorem c2_remaining_exact (b : Budget) :
    analyze_budget (some b) = AnalysisResult.analysis (analyzeFull b) ∧
    (analyzeFull b).remaining = b.income - (b.expenses.map (fun e => e.2)).sum - b.savings :=
  ⟨rfl, rfl⟩

/-- C3: a budget with income 0 produces no divide-by-zero fault: the savings
ratio is 0, every expense ratio is 0, and remaining equals minus the total
expenses minus savings. -/
theorem c3_income_zero (b : Budget) (h : b.income = 0) :
    (analyzeFull b).savings_ratio = 0 ∧
    (∀ p ∈ (analyzeFull b).expense_ratios, p.2 = 0) ∧
    (analyzeFull b).remaining = -(total_expensesOf b) - b.savings := by
  refine ⟨?_, ?_, ?_⟩
  · show savings_ratioOf b = 0
    simp [savings_ratioOf, h]
  · intro p hp
    have hp' : p ∈ expense_ratiosOf b := hp
    rw [expense_ratiosOf] at hp'
    rcases List.mem_map.mp hp' with ⟨q, _, rfl⟩
    simp [h]
  · show remainingOf b = -(total_expensesOf b) - b.savings
    rw [remainingOf, h]
    ring

/-- Witness for C3 at a concrete zero-income budget. -/
theorem c3_income_zero_witness :
    (analyzeFull { income := 0, savings := 5, expenses := [(("Rent" : String), 20)] }).savings_ratio = 0 ∧
    (∀ p ∈ (analyzeFull { income := 0, savings := 5, expenses := [(("Rent" : String), 20)] }).expense_ratios,
      p.2 = 0) ∧
    (analyzeFull { income := 0, savings := 5, expenses := [(("Rent" : String), 20)] }).remaining =
      -(total_expensesOf { income := 0, savings := 5, expenses := [(("Rent" : String), 20)] }) -
      ({ income := 0, savings := 5, expenses := [(("Rent" : String), 20)] } : Budget).savings :=
  c3_income_zero _ rfl

/-- C9: a null budget yields the degenerate analysis: exactly one high-priority
error-type recommendation, `balance` false, and (by the shape of the
`degenerate` constructor) no numeric fields. -/
theorem c9_null_budget :
    analyze_budget none = AnalysisResult.degenerate false
      [{ type := ("error" : String),
         message := ("No budget data available for analysis." : String),
         priority := ("high" : String) }] := rfl

/-- C10: every analysis carries a boolean `balance`: for a non-null budget it is
`remaining >= 0`, and in the degenerate no-budget analysis it is `false`. -/
theorem c10_balance_field :
    (∀ b : Budget, analyze_budget (some b) = AnalysisResult.analysis (analyzeFull b) ∧
      (analyzeFull b).balance = decide (0 ≤ (analyzeFull b).remaining)) ∧
    (∃ recs, analyze_budget none = AnalysisResult.degenerate false recs) :=
  ⟨fun _ => ⟨rfl, rfl⟩, ⟨_, rfl⟩⟩

/-- C7: recommendations come in the fixed order overall-balance, savings-rate,
one medium-priority warning per non-`Savings` concern in discovery order, then
the two fixed low-priority student tips; hence at least 4 recommendations. -/
theorem c7_recommendation_order (b : Budget) :
    (analyzeFull b).recommendations =
      balanceRecOf b :: savingsRateRecOf b ::
        ((analyzeFull b).concerns.filterMap (fun c =>
          if c.category == ("Savings" : String) then none else some (concernRecommendation c)))
        ++ [studentTip1, studentTip2] ∧
    4 ≤ (analyzeFull b).recommendations.length ∧
    (∀ c : Concern, (concernRecommendation c).priority = ("medium" : String) ∧
      (concernRecommendation c).type = ("warning" : String)) ∧
    studentTip1.priority = ("low" : String) ∧ studentTip2.priority = ("low" : String) := by
  refine ⟨rfl, ?_, fun _ => ⟨rfl, rfl⟩, rfl, rfl⟩
  show 4 ≤ (recommendationsOf b).length
  rw [recommendationsOf]
  simp only [List.length_cons, List.length_append]
  omega

/-- The concrete budget of C8: income 2000, savings 100, one Housing expense of 700. -/
def budgetC8 : Budget := { income := 2000, savings := 100, expenses := [(("Housing" : String), 700)] }

/-- The Housing concern that C8 predicts for `budgetC8`: ratio 35% against the
30% threshold, excess 5, saving potential `5 * 2000 / 100 = 100`. -/
def concernC8 : Concern :=
  { category := ("Housing" : String), current := 35, threshold := 30, excess := 5,
    amount := 700, saving_potential := 100 }

/-- C8: the savings-rate recommendation is chosen by the absolute bands
`<5` / `5-<10` / `>=10`; for `budgetC8` the savings ratio is exactly 5 (the
medium band) and a Housing concern with saving potential 100 is produced. -/
theorem c8_savings_bands (b : Budget) :
    (savings_ratioOf b < 5 → (savingsRateRecOf b).priority = ("high" : String) ∧
      (savingsRateRecOf b).type = ("warning" : String)) ∧
    (5 ≤ savings_ratioOf b → savings_ratioOf b < 10 →
      (savingsRateRecOf b).priority = ("medium" : String) ∧
      (savingsRateRecOf b).type = ("info" : String)) ∧
    (10 ≤ savings_ratioOf b → (savingsRateRecOf b).priority = ("low" : String) ∧
      (savingsRateRecOf b).type = ("success" : String)) ∧
    savings_ratioOf budgetC8 = 5 ∧
    (savingsRateRecOf budgetC8).priority = ("medium" : String) ∧
    (savingsRateRecOf budgetC8).type = ("info" : String) ∧
    concernC8 ∈ concernsOf budgetC8 := by
  have h5 : savings_ratioOf budgetC8 = 5 := by
    simp only [savings_ratioOf, budgetC8]
    norm_num
  have hband : (savingsRateRecOf budgetC8).priority = ("medium" : String) ∧
      (savingsRateRecOf budgetC8).type = ("info" : String) := by
    rw [savingsRateRecOf, h5]
    norm_num
  have hg : grouped_expensesOf budgetC8 = [(("Housing" : String), (700 : ℚ))] := rfl
  have hr : expense_ratiosOf budgetC8 = [(("Housing" : String), (35 : ℚ))] := by
    rw [expense_ratiosOf, hg]
    simp only [List.map_cons, List.map_nil, budgetC8]
    norm_num
  have hmem : concernC8 ∈ concernsOf budgetC8 := by
    have ht : thresholdOf ("Housing") = 30 := rfl
    have hl : lookupAmount (grouped_expensesOf budgetC8) ("Housing") = 700 := by
      rw [hg]
      rfl
    have hinc : budgetC8.income = 2000 := rfl
    rw [concernsOf]
    refine List.mem_append_left _
      (List.mem_filterMap.mpr ⟨(("Housing" : String), (35 : ℚ)), ?_, ?_⟩)
    · rw [hr]
      exact List.mem_singleton_self _
    · simp only [ht, hl, hinc]
      rw [if_pos (show (30 : ℚ) < 35 by norm_num)]
      simp only [concernC8, Option.some.injEq, Concern.mk.injEq]
      norm_num
  refine ⟨?_, ?_, ?_, h5, hband.1, hband.2, hmem⟩
  · intro h
    rw [savingsRateRecOf, if_pos h]
    exact ⟨rfl, rfl⟩
  · intro h1 h2
    rw [savingsRateRecOf, if_neg (by linarith), if_pos h2]
    exact ⟨rfl, rfl⟩
  · intro h
    rw [savingsRateRecOf, if_neg (by linarith), if_neg (by linarith)]
    exact ⟨rfl, rfl⟩

/-- Witness for C8: the medium band fires at the concrete budget with a savings
ratio of exactly 5. -/
theorem c8_savings_bands_witness :
    (savingsRateRecOf budgetC8).priority = ("medium" : String) ∧
    (savingsRateRecOf budgetC8).type = ("info" : String) :=
  (c8_savings_bands budgetC8).2.1
    (by simp only [savings_ratioOf, budgetC8]; norm_num)
    (by simp only [savings_ratioOf, budgetC8]; norm_num)

/-! ### Key uniqueness of the grouped-expense dict (for C1) -/

/-- The key list of an association list with rational values. -/
def keysOf (l : List (String × ℚ)) : List String := l.map Prod.fst

theorem keysOf_addToGroup (l : List (String × ℚ)) (c : String) (a : ℚ) :
    keysOf (addToGroup l c a) = if c ∈ keysOf l then keysOf l else keysOf l ++ [c] := by
  induction l with
  | nil => simp [addToGroup, keysOf]
  | cons hd tl ih =>
    obtain ⟨c', a'⟩ := hd
    by_cases h : c' = c
    · subst h
      simp [addToGroup, keysOf]
    · have hbeq : (c' == c) = false := by simp [h]
      have hk2 : keysOf (addToGroup ((c', a') :: tl) c a) = c' :: keysOf (addToGroup tl c a) := by
        simp only [addToGroup, hbeq, Bool.false_eq_true, if_false]
        rfl
      rw [hk2, ih]
      rw [show keysOf ((c', a') :: tl) = c' :: keysOf tl from rfl]
      by_cases hm : c ∈ keysOf tl
      · rw [if_pos hm, if_pos (List.mem_cons_of_mem _ hm)]
      · rw [if_neg hm, if_neg ?_]
        · rfl
        · intro hcm
          rcases List.mem_cons.mp hcm with heq | hmm
          · exact h heq.symm
          · exact hm hmm

theorem mem_keysOf_addToGroup (l : List (String × ℚ)) (c k : String) (a : ℚ) :
    k ∈ keysOf (addToGroup l c a) ↔ k ∈ keysOf l ∨ k = c := by
  rw [keysOf_addToGroup]
  split_ifs with hm
  · constructor
    · exact Or.inl
    · rintro (h | rfl)
      · exact h
      · exact hm
  · simp

theorem nodup_keysOf_addToGroup (l : List (String × ℚ)) (c : String) (a : ℚ)
    (h : (keysOf l).Nodup) : (keysOf (addToGroup l c a)).Nodup := by
  rw [keysOf_addToGroup]
  split_ifs with hm
  · exact h
  · simp [List.nodup_append, h, hm]

theorem mapping_snd_ne_savings : ∀ p ∈ category_mapping, p.2 ≠ ("Savings" : String) := by decide

theorem map_to_general_category_ne_savings (c : String) :
    map_to_general_category c ≠ ("Savings" : String) := by
  rw [map_to_general_category]
  cases hf : category_mapping.find? (fun p => p.1 == c) with
  | none => decide
  | some p =>
    have hp := List.mem_of_find?_eq_some hf
    simpa using mapping_snd_ne_savings p hp

theorem grouped_fold_invariant (es : List (String × ℚ)) (acc : List (String × ℚ))
    (h1 : (keysOf acc).Nodup) (h2 : ∀ k ∈ keysOf acc, k ≠ ("Savings" : String)) :
    (keysOf (es.foldl (fun g e => addToGroup g (map_to_general_category e.1) e.2) acc)).Nodup ∧
    ∀ k ∈ keysOf (es.foldl (fun g e => addToGroup g (map_to_general_category e.1) e.2) acc),
      k ≠ ("Savings" : String) := by
  induction es generalizing acc with
  | nil => exact ⟨h1, h2⟩
  | cons e rest ih =>
    simp only [List.foldl_cons]
    refine ih _ (nodup_keysOf_addToGroup _ _ _ h1) ?_
    intro k hk
    rcases (mem_keysOf_addToGroup _ _ _ _).mp hk with h | rfl
    · exact h2 k h
    · exact map_to_general_category_ne_savings _

theorem nodup_keys_grouped (b : Budget) :
    (keysOf (grouped_expensesOf b)).Nodup ∧
    ∀ k ∈ keysOf (grouped_expensesOf b), k ≠ ("Savings" : String) :=
  grouped_fold_invariant b.expenses [] (by simp [keysOf]) (by simp [keysOf])

theorem keysOf_expense_ratios (b : Budget) :
    keysOf (expense_ratiosOf b) = keysOf (grouped_expensesOf b) := by
  rw [expense_ratiosOf, keysOf, keysOf, List.map_map]
  rfl

theorem map_category_filterMap_sublist (l : List (String × ℚ))
    (f : String × ℚ → Option Concern)
    (hf : ∀ p c, f p = some c → c.category = p.1) :
    ((l.filterMap f).map Concern.category).Sublist (keysOf l) := by
  induction l with
  | nil => simp [keysOf]
  | cons hd tl ih =>
    cases hc : f hd with
    | none =>
      rw [List.filterMap_cons_none hc]
      exact ih.trans (by simp [keysOf])
    | some c =>
      have hcat := hf hd c hc
      rw [List.filterMap_cons_some hc, List.map_cons, hcat]
      show (hd.1 :: _).Sublist (hd.1 :: List.map Prod.fst tl)
      exact ih.cons₂ _

/-- The concern record `analyze_budget` builds for an over-threshold
`(category, ratio)` pair of `expense_ratios`. -/
def generalConcern (b : Budget) (p : String × ℚ) : Concern :=
  { category := p.1, current := p.2, threshold := thresholdOf p.1,
    excess := p.2 - thresholdOf p.1,
    amount := lookupAmount (grouped_expensesOf b) p.1,
    saving_potential := (p.2 - thresholdOf p.1) * b.income / 100 }

/-- The synthetic `Savings` concern (threshold 10, excess 0, saving potential 0). -/
def savingsConcern (b : Budget) : Concern :=
  { category := ("Savings" : String), current := savings_ratioOf b, threshold := 10,
    excess := 0, amount := b.savings, saving_potential := 0 }

/-- C1: for every budget, `concerns` contains exactly: one entry per general
category whose ratio strictly exceeds its threshold (table lookup with default
10), with `excess = ratio - threshold` and
`saving_potential = excess * income / 100`, plus the synthetic `Savings`
concern (saving potential 0) exactly when the savings ratio is below 10 — and
nothing else; the concern categories are pairwise distinct. -/
theorem c1_concerns_characterization (b : Budget) :
    (∀ c : Concern, c ∈ (analyzeFull b).concerns ↔
      ((∃ p ∈ (analyzeFull b).expense_ratios, thresholdOf p.1 < p.2 ∧ c = generalConcern b p) ∨
        ((analyzeFull b).savings_ratio < 10 ∧ c = savingsConcern b))) ∧
    ((analyzeFull b).concerns.map Concern.category).Nodup := by
  have hsav : thresholdOf ("Savings") = 10 := rfl
  constructor
  · intro c
    show c ∈ concernsOf b ↔ _
    rw [concernsOf]
    constructor
    · intro hc
      rcases List.mem_append.mp hc with h | h
      · rcases List.mem_filterMap.mp h with ⟨p, hp, he⟩
        by_cases hth : thresholdOf p.1 < p.2
        · rw [if_pos hth] at he
          exact Or.inl ⟨p, hp, hth, (Option.some.inj he).symm⟩
        · rw [if_neg hth] at he
          cases he
      · by_cases hs : savings_ratioOf b < thresholdOf ("Savings")
        · rw [if_pos hs] at h
          have hc' := List.mem_singleton.mp h
          refine Or.inr ⟨?_, ?_⟩
          · show savings_ratioOf b < 10
            rwa [hsav] at hs
          · rw [hc', savingsConcern, hsav]
        · rw [if_neg hs] at h
          exact absurd h (List.not_mem_nil _)
    · rintro (⟨p, hp, hth, rfl⟩ | ⟨hs, rfl⟩)
      · exact List.mem_append_left _
          (List.mem_filterMap.mpr ⟨p, hp, by rw [if_pos hth]; rfl⟩)
      · refine List.mem_append_right _ ?_
        rw [if_pos (show savings_ratioOf b < thresholdOf ("Savings") by rw [hsav]; exact hs)]
        rw [savingsConcern, hsav]
        exact List.mem_singleton_self _
  · show ((concernsOf b).map Concern.category).Nodup
    have hgrp := nodup_keys_grouped b
    have hsub := map_category_filterMap_sublist (expense_ratiosOf b)
      (fun p => if thresholdOf p.1 < p.2 then some (generalConcern b p) else none)
      (fun p c hc => by
        have hc2 : (if thresholdOf p.1 < p.2 then some (generalConcern b p) else none) =
            some c := hc
        by_cases hth : thresholdOf p.1 < p.2
        · rw [if_pos hth] at hc2
          rw [← Option.some.inj hc2]
          rfl
        · rw [if_neg hth] at hc2
          cases hc2)
    rw [keysOf_expense_ratios b] at hsub
    have h1 := hsub.nodup hgrp.1
    have h2 : ("Savings" : String) ∉
        ((expense_ratiosOf b).filterMap
          (fun p => if thresholdOf p.1 < p.2 then some (generalConcern b p) else none)).map
          Concern.category := by
      intro hmem
      exact hgrp.2 _ (hsub.subset hmem) rfl
    rw [concernsOf, List.map_append]
    by_cases hs : savings_ratioOf b < thresholdOf ("Savings")
    · rw [if_pos hs]
      rw [List.nodup_append]
      refine ⟨h1, List.nodup_singleton _, ?_⟩
      intro x hx hx2
      have hxs : x = ("Savings" : String) := by
        simpa using hx2
      rw [hxs] at hx
      exact h2 hx
    · rw [if_neg hs]
      simpa using h1

/-! ## Claim theorems: knowledge engine -/

/-- The one-term glossary of C5's concrete example: `Credit Score` with alias `FICO`. -/
def ficoKB : KB :=
  [(("Credit Score" : String),
    { definition := ("A number that represents creditworthiness." : String),
      aliases := [("FICO" : String)] })]

/-- C5: `find_best_match` is the tiered case-insensitive cascade of the spec —
exact key, case-insensitive key, alias exact, key substring, alias substring —
first successful tier wins, `none` as the normal not-found outcome; and
resolving `fico` against a glossary with alias `FICO` yields `Credit Score`. -/
theorem c5_find_best_match_tiers :
    (∀ term kb, find_best_match term kb = resolveSpec term kb) ∧
    find_best_match ("fico") ficoKB = some ("Credit Score") := by
  refine ⟨fun term kb => ?_, by decide⟩
  rw [find_best_match, resolveSpec, tierExactKey]
  by_cases h1 : kb.any (fun p => p.1 == term)
  · rw [if_pos h1, if_pos h1]
    rfl
  · rw [if_neg h1, if_neg h1]
    cases h2 : kb.find? (fun p => pyLower term == pyLower p.1) with
    | some p => simp [tierCIKey, h2, Option.orElse]
    | none =>
      cases h3 : kb.find? (fun p => p.2.aliases.any (fun al => pyLower term == pyLower al)) with
      | some p => simp [tierCIKey, tierAliasExact, h2, h3, Option.orElse]
      | none =>
        cases h4 : kb.find? (fun p => substrB (pyLower term) (pyLower p.1)) with
        | some p => simp [tierCIKey, tierAliasExact, tierKeySubstring, h2, h3, h4, Option.orElse]
        | none =>
          cases h5 : kb.find? (fun p => p.2.aliases.any (fun al => substrB (pyLower term) (pyLower al))) with
          | some p =>
            simp [tierCIKey, tierAliasExact, tierKeySubstring, tierAliasSubstring,
              h2, h3, h4, h5, Option.orElse]
          | none =>
            simp [tierCIKey, tierAliasExact, tierKeySubstring, tierAliasSubstring,
              h2, h3, h4, h5, Option.orElse]

/-- The two-term glossary of C6's comparative example: `Savings` contains the
query token `budget` only in its definition text (score 1), `Budget` contains
it in the term name (score 3) and comes later in insertion order. -/
def kbC6 : KB :=
  [(("Savings" : String), { definition := ("Money set aside in a budget." : String) }),
   (("Budget" : String), { definition := ("A plan for spending money." : String) })]

/-- C6: general-intent answering scores every term by 3 per token in the name,
2 per token in an alias, 1 per token in the definition, keeps only positive
scores, and ranks descending (stably), so the answer uses a highest-scoring
term; a name hit outranks a definition-only hit, as the `kbC6` example shows. -/
theorem c6_general_ranking :
    (∀ q kb, relevant_termsOf q kb =
      (List.insertionSort scoreGe (scoredTermsOf q kb)).map Prod.fst) ∧
    (∀ q kb, List.Perm (List.insertionSort scoreGe (scoredTermsOf q kb)) (scoredTermsOf q kb)) ∧
    (∀ q kb, (List.insertionSort scoreGe (scoredTermsOf q kb)).Pairwise scoreGe) ∧
    (∀ q kb p, p ∈ scoredTermsOf q kb ↔
      ∃ info, (p.1, info) ∈ kb ∧ term_relevance (question_wordsOf q) p.1 info = p.2 ∧ 0 < p.2) ∧
    (∀ q kb hd tl, List.insertionSort scoreGe (scoredTermsOf q kb) = hd :: tl →
      ∀ p ∈ scoredTermsOf q kb, p.2 ≤ hd.2) ∧
    relevant_termsOf ("budget tips") kbC6 = [("Budget" : String), ("Savings" : String)] := by
  have hset : ∀ q kb, scoredTermsOf q kb = kb.filterMap (fun a =>
      if 0 < term_relevance (question_wordsOf q) a.1 a.2
      then some (a.1, term_relevance (question_wordsOf q) a.1 a.2) else none) :=
    fun _ _ => rfl
  refine ⟨fun q kb => rfl, fun q kb => List.perm_insertionSort _ _,
    fun q kb => List.sorted_insertionSort _ _, ?_, ?_, by decide⟩
  · intro q kb p
    rw [hset]
    constructor
    · intro hp
      rcases List.mem_filterMap.mp hp with ⟨a, ha, he⟩
      by_cases hr : 0 < term_relevance (question_wordsOf q) a.1 a.2
      · rw [if_pos hr] at he
        rw [← Option.some.inj he]
        exact ⟨a.2, by simpa using ha, rfl, hr⟩
      · rw [if_neg hr] at he
        cases he
    · rintro ⟨info, hmem, hrel, hpos⟩
      refine List.mem_filterMap.mpr ⟨(p.1, info), hmem, ?_⟩
      show (if 0 < term_relevance (question_wordsOf q) p.1 info
        then some (p.1, term_relevance (question_wordsOf q) p.1 info) else none) = some p
      rw [hrel, if_pos hpos, Prod.mk.eta]
  · intro q kb hd tl heq p hp
    have hsort := List.sorted_insertionSort scoreGe (scoredTermsOf q kb)
    have hperm := List.perm_insertionSort scoreGe (scoredTermsOf q kb)
    rw [heq] at hsort
    have hp' : p ∈ hd :: tl := by
      rw [← heq]
      exact hperm.symm.subset hp
    rcases List.mem_cons.mp hp' with rfl | hptl
    · exact le_refl _
    · exact (List.pairwise_cons.mp hsort).1 p hptl

/-- C4 (observed code behavior): the question `What is a credit score?` is
classified as a definition question with subject `credit score`; but
`How do I save money?` falls through every pattern group to `General` with the
raw question text, because the `how do I` pattern contains a literal uppercase
`I` that can never match the lowercased question. -/
theorem c4_pattern_cascade :
    process_question ("How do I save money?") = Intent.General ("How do I save money?") ∧
    process_question ("What is a credit score?") = Intent.Definition ("credit score") :=
  ⟨rfl, rfl⟩
